import Mathlib

/-!
Verification of the stock/alert consistency engine of the farlab inventory
backend: the stock ledger (`models/part.py`), the alert lifecycle
(`models/alert.py`, `services/alert_service.py`, the stock route in
`routers/parts.py`), the notification dispatcher
(`services/notification_service.py`) and the reconciliation job
(`services/scheduler.py`), shallowly embedded as pure Lean functions over an
explicit database state.
-/

namespace Farlab

/-- Columns of the `parts` table (`models/part.py`); timestamps and the ORM
relationship are omitted, instrument links live in `InstrumentPart`. -/
structure Part where
  id : Nat
  part_number : String
  name : String
  description : Option String := none
  category : Option String := none
  manufacturer : Option String := none
  quantity_in_stock : Int
  minimum_stock_level : Int
  unit_of_measure : Option String := some "each"
  is_critical : Bool := false
  is_active : Bool := true
  deriving DecidableEq

/-- A row of `instrument_parts` joined with the owning instrument's name:
the modelled code only ever reads `ip.instrument.name`, `ip.is_active` and
`ip.is_critical`. -/
structure InstrumentPart where
  part_id : Nat
  instrument_name : String
  is_active : Bool
  is_critical : Bool
  deriving DecidableEq

/-- `Part.is_low_stock`: below minimum and the threshold is positive. -/
def Part.is_low_stock (p : Part) : Bool :=
  decide (p.quantity_in_stock ≤ p.minimum_stock_level) && decide (0 < p.minimum_stock_level)

/-- `Part.stock_status`. -/
def Part.stock_status (p : Part) : String :=
  if p.quantity_in_stock = 0 then "Out of stock"
  else if p.quantity_in_stock ≤ p.minimum_stock_level then "Low stock"
  else "In stock"

/-- `Part.update_stock`: add the change; when the result would be negative the
quantity is set to 0 on the object and a `ValueError` is raised (returned here
as the `Option String` component); the criticality flag is only forced on the
non-error path. -/
def Part.update_stock (p : Part) (quantity_change : Int) (force_critical : Bool) :
    Part × Option String :=
  let old_quantity := p.quantity_in_stock
  let p1 : Part := { p with quantity_in_stock := p.quantity_in_stock + quantity_change }
  if p1.quantity_in_stock < 0 then
    ({ p1 with quantity_in_stock := 0 },
     some ("Cannot remove " ++ toString quantity_change.natAbs ++
           " items. Only " ++ toString old_quantity ++ " available."))
  else
    let p2 := if force_critical && p1.quantity_in_stock == 0 then
        { p1 with is_critical := true } else p1
    (p2, none)

/-- Quantities observed after each successive `update_stock` call; a rejected
call leaves the clamped object in place, as the python object would be. -/
def stockTrace (p : Part) : List Int → List Int
  | [] => []
  | d :: ds =>
    let p' := (p.update_stock d false).1
    p'.quantity_in_stock :: stockTrace p' ds

theorem update_stock_quantity_eq_max (p : Part) (d : Int) :
    (p.update_stock d false).1.quantity_in_stock = max 0 (p.quantity_in_stock + d) := by
  simp only [Part.update_stock, Bool.false_and, if_false, Bool.false_eq_true]
  split
  · next h => simp at h ⊢; omega
  · next h => simp at h ⊢; omega

theorem update_stock_nonneg (p : Part) (d : Int) :
    0 ≤ (p.update_stock d false).1.quantity_in_stock := by
  rw [update_stock_quantity_eq_max]; exact le_max_left 0 _

theorem stockTrace_nonneg (p : Part) (ds : List Int) :
    (stockTrace p ds).all (fun q => decide (0 ≤ q)) = true := by
  induction ds generalizing p with
  | nil => rfl
  | cons d ds ih =>
    simp only [stockTrace, List.all_cons, Bool.and_eq_true, decide_eq_true_eq]
    exact ⟨update_stock_nonneg p d, ih _⟩

/-- C1: for every part and every delta sequence applied via `Part.update_stock`
starting from quantity 0, the quantity after each step is nonnegative; each
step follows the rule new = max(0, old + delta), and the call reports an error
exactly when old + delta < 0 (in which case the quantity is clamped to 0). -/
theorem update_stock_nonneg_invariant (p : Part) (ds : List Int) (d : Int) :
    ((stockTrace { p with quantity_in_stock := 0 } ds).all (fun q => decide (0 ≤ q))) = true ∧
    (p.update_stock d false).1.quantity_in_stock = max 0 (p.quantity_in_stock + d) ∧
    (p.update_stock d false).2.isSome = decide (p.quantity_in_stock + d < 0) := by
  refine ⟨stockTrace_nonneg _ ds, update_stock_quantity_eq_max p d, ?_⟩
  simp only [Part.update_stock, Bool.false_and, if_false, Bool.false_eq_true]
  split
  · next h => simp at h ⊢; omega
  · next h => simp at h ⊢; omega

/-- Columns of the `alerts` table (`models/alert.py`); the database-assigned
surrogate `id` and `created_at`, which the modelled code never reads, are
omitted. -/
structure Alert where
  part_id : Nat
  message : String
  current_stock : Int
  threshold_stock : Int
  is_active : Bool
  is_resolved : Bool
  resolved_at : Option Nat
  deriving DecidableEq

/-- `Alert.resolve`: mark resolved and inactive in one step; the
server-generated `func.now()` timestamp is the `now` argument. -/
def Alert.resolve (a : Alert) (now : Nat) : Alert :=
  { a with is_resolved := true, is_active := false, resolved_at := some now }

/-- `Part.instruments`: names of active instruments using the part. -/
def Part.instruments (ips : List InstrumentPart) (p : Part) : List String :=
  (ips.filter (fun ip => ip.part_id == p.id && ip.is_active)).map
    (fun ip => ip.instrument_name)

/-- `Part.critical_for_instruments`: names of active instruments for which the
part is flagged critical. -/
def Part.critical_for_instruments (ips : List InstrumentPart) (p : Part) : List String :=
  (ips.filter (fun ip => ip.part_id == p.id && ip.is_critical && ip.is_active)).map
    (fun ip => ip.instrument_name)

/-- Python truthiness of an optional string column. -/
def optTruthy : Option String → Bool
  | none => false
  | some s => !(s == "")

/-- The `message_alert` lines built inside `Alert.create_low_stock_alert`. -/
def low_stock_alert_message (ips : List InstrumentPart) (part : Part) : String :=
  let message_alert : List String :=
    ["LOW STOCK ALERT!",
     "Parts need to be purchased: \n",
     "Part Number: " ++ part.part_number,
     "Part Name: " ++ part.name,
     "Current Stock: " ++ toString part.quantity_in_stock,
     "Minimum Required: " ++ toString part.minimum_stock_level]
  let message_alert := if optTruthy part.manufacturer then
      message_alert ++ ["Manufacturer: " ++ part.manufacturer.getD ""]
    else message_alert
  let message_alert := if !(part.part_number == "") then
      message_alert ++ ["Manufacturer P/N: " ++ part.part_number]
    else message_alert
  let insts := Part.instruments ips part
  let message_alert := if !insts.isEmpty then
      message_alert ++ ["Used by instruments: " ++ String.intercalate ", " insts]
    else message_alert
  let crits := Part.critical_for_instruments ips part
  let message_alert := if !crits.isEmpty then
      message_alert ++ ["Critical for: " ++ String.intercalate ", " crits]
    else message_alert
  String.intercalate "\n" message_alert

/-- `Alert.create_low_stock_alert`: the new row with its snapshot message;
columns default to `is_active = true`, `is_resolved = false`. -/
def Alert.create_low_stock_alert (ips : List InstrumentPart) (part : Part) : Alert :=
  { part_id := part.id
    message := low_stock_alert_message ips part
    current_stock := part.quantity_in_stock
    threshold_stock := part.minimum_stock_level
    is_active := true
    is_resolved := false
    resolved_at := none }

/-- The persistent rows the alert-lifecycle code touches, plus the queue of
background email tasks (part ids) and the server clock used by `func.now()`. -/
structure DBState where
  parts : List Part
  instrument_parts : List InstrumentPart
  alerts : List Alert
  queued_emails : List Nat
  time : Nat
  deriving DecidableEq

/-- `db.query(Part).filter(Part.id == part_id).first()`. -/
def findPart (s : DBState) (part_id : Nat) : Option Part :=
  s.parts.find? (fun p => p.id == part_id)

/-- `db.query(Alert).filter(Alert.part_id == part_id, Alert.is_active).first()`. -/
def activeAlertFor (alerts : List Alert) (part_id : Nat) : Option Alert :=
  alerts.find? (fun a => a.part_id == part_id && a.is_active)

/-- `check_stock_and_create_alert` (services/alert_service.py): if the part
exists, is low on stock and has no active alert, insert a new alert and queue
the notification email. -/
def check_stock_and_create_alert (s : DBState) (part_id : Nat) : DBState :=
  match findPart s part_id with
  | none => s
  | some part =>
    if !part.is_low_stock then s
    else
      match activeAlertFor s.alerts part_id with
      | some _ => s
      | none =>
        { s with
          alerts := s.alerts ++ [Alert.create_low_stock_alert s.instrument_parts part],
          queued_emails := s.queued_emails ++ [part_id] }

/-- `Alert.check_and_create_alerts` (models/alert.py): one alert for every
active part at or below threshold that has no active alert yet. -/
def check_and_create_alerts (s : DBState) : DBState :=
  let active_ids := (s.alerts.filter (fun a => a.is_active)).map (fun a => a.part_id)
  let low_stock_parts := s.parts.filter (fun p =>
    decide (p.quantity_in_stock ≤ p.minimum_stock_level) && p.is_active &&
      !(active_ids.contains p.id))
  { s with alerts := s.alerts ++
      low_stock_parts.map (fun p => Alert.create_low_stock_alert s.instrument_parts p) }

/-- The update applied to every alert row by `resolve_alerts_for_part`. -/
def resolveList (alerts : List Alert) (part_id : Nat) (now : Nat) : List Alert :=
  alerts.map (fun a => if a.part_id == part_id && a.is_active then a.resolve now else a)

/-- `resolve_alerts_for_part` (services/alert_service.py): resolve every active
alert of the part. -/
def resolve_alerts_for_part (s : DBState) (part_id : Nat) : DBState :=
  { s with alerts := resolveList s.alerts part_id s.time }

/-- The `POST /parts/{part_id}/stock` route body (`update_stock_level` in
routers/parts.py): update the stock, then either resolve alerts (replenished
out of a low state) or create one (still low, none active); a `ValueError`
from `update_stock` is caught, the session rolled back and a 500 returned, so
the stored state is unchanged. -/
def update_stock_level (s : DBState) (part_id : Nat) (quantity_change : Int) : DBState :=
  match findPart s part_id with
  | none => s
  | some db_part =>
    let was_low_stock := db_part.is_low_stock
    match db_part.update_stock quantity_change false with
    | (_, some _) => s
    | (part', none) =>
      let s1 := { s with parts := s.parts.map (fun q => if q.id == part_id then part' else q) }
      if decide (0 < quantity_change) && !part'.is_low_stock && was_low_stock then
        resolve_alerts_for_part s1 part_id
      else if part'.is_low_stock then
        match activeAlertFor s1.alerts part_id with
        | some _ => s1
        | none =>
          { s1 with
            alerts := s1.alerts ++ [Alert.create_low_stock_alert s1.instrument_parts part'],
            queued_emails := s1.queued_emails ++ [part_id] }
      else s1

/-- The alert-lifecycle entry points named by the spec. -/
inductive AlertOp where
  | checkStock (part_id : Nat)
  | checkAll
  | resolvePart (part_id : Nat)
  | stockRoute (part_id : Nat) (quantity_change : Int)

def stepOp (s : DBState) : AlertOp → DBState
  | .checkStock pid => check_stock_and_create_alert s pid
  | .checkAll => check_and_create_alerts s
  | .resolvePart pid => resolve_alerts_for_part s pid
  | .stockRoute pid d => update_stock_level s pid d

def runOps (s : DBState) : List AlertOp → DBState
  | [] => s
  | op :: ops => runOps (stepOp s op) ops

/-- A fresh database: the given catalogue, no alerts yet. -/
def initState (parts : List Part) (ips : List InstrumentPart) : DBState :=
  { parts := parts, instrument_parts := ips, alerts := [], queued_emails := [], time := 0 }

/-- Number of active alerts a part owns. -/
def countActive (alerts : List Alert) (part_id : Nat) : Nat :=
  (alerts.filter (fun a => a.part_id == part_id && a.is_active)).length

theorem countActive_nil (pid : Nat) : countActive [] pid = 0 := rfl

theorem countActive_cons (x : Alert) (l : List Alert) (pid : Nat) :
    countActive (x :: l) pid
      = (if (x.part_id == pid && x.is_active) = true then 1 else 0) + countActive l pid := by
  simp only [countActive, List.filter_cons]
  split <;> simp <;> omega

theorem countActive_append (l₁ l₂ : List Alert) (pid : Nat) :
    countActive (l₁ ++ l₂) pid = countActive l₁ pid + countActive l₂ pid := by
  simp [countActive, List.filter_append]

theorem countActive_eq_zero_of_activeAlertFor_none (l : List Alert) (pid : Nat)
    (h : activeAlertFor l pid = none) : countActive l pid = 0 := by
  simp only [activeAlertFor, List.find?_eq_none] at h
  simp only [countActive, List.length_eq_zero, List.filter_eq_nil_iff]
  exact h

theorem countActive_resolveList_le (l : List Alert) (pid0 pid now : Nat) :
    countActive (resolveList l pid0 now) pid ≤ countActive l pid := by
  induction l with
  | nil => simp [resolveList, countActive]
  | cons a l ih =>
    simp only [resolveList, List.map_cons] at ih ⊢
    by_cases h : (a.part_id == pid0 && a.is_active) = true
    · rw [if_pos h, countActive_cons, countActive_cons]
      have hres : ((a.resolve now).part_id == pid && (a.resolve now).is_active) = false := by
        simp [Alert.resolve]
      rw [hres]
      simp only [Bool.false_eq_true, if_false]
      split <;> omega
    · rw [if_neg h, countActive_cons, countActive_cons]
      exact Nat.add_le_add_left ih _

theorem countActive_map_create (ips : List InstrumentPart) (ps : List Part) (pid : Nat) :
    countActive (ps.map (fun p => Alert.create_low_stock_alert ips p)) pid
      = (ps.filter (fun p => p.id == pid)).length := by
  induction ps with
  | nil => rfl
  | cons p ps ih =>
    simp only [List.map_cons]
    rw [countActive_cons]
    have hf : ((Alert.create_low_stock_alert ips p).part_id == pid &&
        (Alert.create_low_stock_alert ips p).is_active) = (p.id == pid) := by
      simp [Alert.create_low_stock_alert]
    rw [hf, List.filter_cons]
    split <;> simp [ih] <;> omega

theorem length_filter_id_le_one (ps : List Part) (pid : Nat)
    (h : (ps.map Part.id).Nodup) : (ps.filter (fun p => p.id == pid)).length ≤ 1 := by
  induction ps with
  | nil => simp
  | cons p ps ih =>
    simp only [List.map_cons, List.nodup_cons] at h
    obtain ⟨hnotin, hnd⟩ := h
    rw [List.filter_cons]
    split
    · next hp =>
      have hpe : p.id = pid := beq_iff_eq.mp hp
      have hempt : ps.filter (fun q => q.id == pid) = [] := by
        rw [List.filter_eq_nil_iff]
        intro q hq hq2
        exact hnotin (by
          rw [List.mem_map]
          exact ⟨q, hq, by rw [beq_iff_eq.mp hq2, hpe]⟩)
      simp [hempt]
    · exact ih hnd

theorem countActive_eq_zero_of_contains_false (l : List Alert) (pid : Nat)
    (h : (((l.filter (fun a => a.is_active)).map (fun a => a.part_id)).contains pid) = false) :
    countActive l pid = 0 := by
  simp only [countActive, List.length_eq_zero, List.filter_eq_nil_iff]
  intro a ha hpred
  simp only [Bool.and_eq_true, beq_iff_eq] at hpred
  obtain ⟨hid, hact⟩ := hpred
  have hmem : pid ∈ (l.filter (fun a => a.is_active)).map (fun a => a.part_id) := by
    rw [List.mem_map]
    exact ⟨a, List.mem_filter.mpr ⟨ha, hact⟩, hid⟩
  have h2 : pid ∉ (l.filter (fun a => a.is_active)).map (fun a => a.part_id) := by
    simpa using h
  exact h2 hmem

theorem update_stock_id (p : Part) (d : Int) (fc : Bool) :
    (p.update_stock d fc).1.id = p.id := by
  simp only [Part.update_stock]
  split
  · rfl
  · simp only; split <;> rfl

theorem map_id_replace (l : List Part) (pid : Nat) (p' : Part) (h : p'.id = pid) :
    (l.map (fun q => if q.id == pid then p' else q)).map Part.id = l.map Part.id := by
  induction l with
  | nil => rfl
  | cons q l ih =>
    simp only [List.map_cons, ih]
    by_cases hq : (q.id == pid) = true
    · rw [if_pos hq]
      simp [h, beq_iff_eq.mp hq]
    · rw [if_neg hq]

theorem partIds_stepOp (s : DBState) (op : AlertOp) :
    (stepOp s op).parts.map Part.id = s.parts.map Part.id := by
  cases op with
  | checkStock pid =>
    simp only [stepOp, check_stock_and_create_alert]
    cases findPart s pid with
    | none => rfl
    | some part =>
      simp only
      split
      · rfl
      · cases activeAlertFor s.alerts pid <;> rfl
  | checkAll => rfl
  | resolvePart pid => rfl
  | stockRoute pid d =>
    simp only [stepOp, update_stock_level]
    cases hfp : findPart s pid with
    | none => rfl
    | some db_part =>
      simp only
      cases hup : db_part.update_stock d false with
      | mk part' err =>
        cases err with
        | some e => rfl
        | none =>
          have hid : part'.id = pid := by
            have h1 : part'.id = db_part.id := by
              have := update_stock_id db_part d false
              rw [hup] at this
              exact this
            simp only [findPart] at hfp
            have h2 := List.find?_some hfp
            simp only [beq_iff_eq] at h2
            rw [h1]; exact h2
          simp only
          split
          · exact map_id_replace s.parts pid part' hid
          · split
            · split
              · exact map_id_replace s.parts pid part' hid
              · exact map_id_replace s.parts pid part' hid
            · exact map_id_replace s.parts pid part' hid

theorem countActive_stepOp_le (s : DBState) (op : AlertOp)
    (hnd : (s.parts.map Part.id).Nodup)
    (hinv : ∀ pid, countActive s.alerts pid ≤ 1) (pid : Nat) :
    countActive (stepOp s op).alerts pid ≤ 1 := by
  cases op with
  | checkStock pid0 =>
    simp only [stepOp, check_stock_and_create_alert]
    cases hfp : findPart s pid0 with
    | none => exact hinv pid
    | some part =>
      simp only
      split
      · exact hinv pid
      · cases hal : activeAlertFor s.alerts pid0 with
        | some a => exact hinv pid
        | none =>
          simp only
          rw [countActive_append, countActive_cons, countActive_nil]
          have hcp : (Alert.create_low_stock_alert s.instrument_parts part).part_id = part.id :=
            rfl
          have hpe : part.id = pid0 := by
            simp only [findPart] at hfp
            have h2 := List.find?_some hfp
            simpa using h2
          by_cases hp : ((Alert.create_low_stock_alert s.instrument_parts part).part_id == pid
              && (Alert.create_low_stock_alert s.instrument_parts part).is_active) = true
          · have hpp : pid = pid0 := by
              have h3 : part.id = pid := by
                simpa [Alert.create_low_stock_alert] using hp
              rw [← h3, hpe]
            have h0 : countActive s.alerts pid = 0 := by
              rw [hpp]
              exact countActive_eq_zero_of_activeAlertFor_none _ _ hal
            rw [if_pos hp, h0]
          · rw [if_neg hp]
            have := hinv pid
            omega
  | checkAll =>
    simp only [stepOp, check_and_create_alerts]
    rw [countActive_append, countActive_map_create]
    by_cases hz : (((s.parts.filter (fun p =>
        decide (p.quantity_in_stock ≤ p.minimum_stock_level) && p.is_active &&
          !(((s.alerts.filter (fun a => a.is_active)).map
              (fun a => a.part_id)).contains p.id))).filter
        (fun p => p.id == pid)).length) = 0
    · rw [hz]
      have := hinv pid
      omega
    · have hpos : 0 < ((s.parts.filter (fun p =>
          decide (p.quantity_in_stock ≤ p.minimum_stock_level) && p.is_active &&
            !(((s.alerts.filter (fun a => a.is_active)).map
                (fun a => a.part_id)).contains p.id))).filter
          (fun p => p.id == pid)).length := Nat.pos_of_ne_zero hz
      obtain ⟨q, hq⟩ := List.exists_mem_of_length_pos hpos
      have hq2 := List.mem_filter.mp hq
      obtain ⟨hqlow, hqid⟩ := hq2
      have hq3 := List.mem_filter.mp hqlow
      obtain ⟨-, hqpred⟩ := hq3
      simp only [Bool.and_eq_true, Bool.not_eq_true'] at hqpred
      have hqe : q.id = pid := beq_iff_eq.mp hqid
      have h0 : countActive s.alerts pid = 0 := by
        rw [← hqe]
        exact countActive_eq_zero_of_contains_false _ _ hqpred.2
      have hle1 : ((s.parts.filter (fun p =>
          decide (p.quantity_in_stock ≤ p.minimum_stock_level) && p.is_active &&
            !(((s.alerts.filter (fun a => a.is_active)).map
                (fun a => a.part_id)).contains p.id))).filter
          (fun p => p.id == pid)).length ≤ 1 := by
        apply length_filter_id_le_one
        exact hnd.sublist ((List.filter_sublist s.parts).map Part.id)
      omega
  | resolvePart pid0 =>
    simp only [stepOp, resolve_alerts_for_part]
    exact le_trans (countActive_resolveList_le s.alerts pid0 pid s.time) (hinv pid)
  | stockRoute pid0 d =>
    simp only [stepOp, update_stock_level]
    cases hfp : findPart s pid0 with
    | none => exact hinv pid
    | some db_part =>
      simp only
      cases hup : db_part.update_stock d false with
      | mk part' err =>
        cases err with
        | some e => exact hinv pid
        | none =>
          have hide : part'.id = pid0 := by
            have h1 : part'.id = db_part.id := by
              have := update_stock_id db_part d false
              rw [hup] at this
              exact this
            simp only [findPart] at hfp
            have h2 := List.find?_some hfp
            simp only [beq_iff_eq] at h2
            rw [h1]; exact h2
          simp only
          split
          · simp only [resolve_alerts_for_part]
            exact le_trans (countActive_resolveList_le s.alerts pid0 pid _) (hinv pid)
          · split
            · cases hal : activeAlertFor s.alerts pid0 with
              | some a => exact hinv pid
              | none =>
                simp only
                rw [countActive_append, countActive_cons, countActive_nil]
                by_cases hp : ((Alert.create_low_stock_alert s.instrument_parts part').part_id
                    == pid
                    && (Alert.create_low_stock_alert s.instrument_parts part').is_active) = true
                · have hpp : pid = pid0 := by
                    have h3 : part'.id = pid := by
                      simpa [Alert.create_low_stock_alert] using hp
                    rw [← h3, hide]
                  have h0 : countActive s.alerts pid = 0 := by
                    rw [hpp]
                    exact countActive_eq_zero_of_activeAlertFor_none _ _ hal
                  rw [if_pos hp, h0]
                · rw [if_neg hp]
                  have := hinv pid
                  omega
            · exact hinv pid

theorem countActive_runOps_le (ops : List AlertOp) (s : DBState)
    (hnd : (s.parts.map Part.id).Nodup)
    (hinv : ∀ pid, countActive s.alerts pid ≤ 1) :
    ∀ pid, countActive (runOps s ops).alerts pid ≤ 1 := by
  induction ops generalizing s with
  | nil => exact hinv
  | cons op ops ih =>
    simp only [runOps]
    exact ih (stepOp s op)
      (by rw [partIds_stepOp]; exact hnd)
      (countActive_stepOp_le s op hnd hinv)

/-- C2: starting from a fresh database whose parts have distinct ids, after any
sequence of `check_stock_and_create_alert`, `check_and_create_alerts`,
`resolve_alerts_for_part` and stock-update-route operations, every part owns at
most one alert row with `is_active = true`. -/
theorem at_most_one_active_alert_invariant (parts : List Part) (ips : List InstrumentPart)
    (ops : List AlertOp) (hnd : (parts.map Part.id).Nodup) (pid : Nat) :
    countActive (runOps (initState parts ips) ops).alerts pid ≤ 1 :=
  countActive_runOps_le ops (initState parts ips) hnd
    (fun p => by simp [initState, countActive]) pid

def demoPart : Part :=
  { id := 1, part_number := "PN-1", name := "filament", quantity_in_stock := 0,
    minimum_stock_level := 5 }

/-- Closed instance of the C2 invariant theorem on a concrete run. -/
theorem at_most_one_active_alert_invariant_witness :
    ([demoPart].map Part.id).Nodup ∧
    countActive (runOps (initState [demoPart] [])
      [AlertOp.checkStock 1, AlertOp.checkStock 1, AlertOp.checkAll,
       AlertOp.stockRoute 1 10, AlertOp.stockRoute 1 (-8)]).alerts 1 ≤ 1 :=
  ⟨by decide, at_most_one_active_alert_invariant [demoPart] []
    [AlertOp.checkStock 1, AlertOp.checkStock 1, AlertOp.checkAll,
     AlertOp.stockRoute 1 10, AlertOp.stockRoute 1 (-8)] (by decide) 1⟩

/-- No alert row is simultaneously active and resolved. -/
def alertsOk (alerts : List Alert) : Bool :=
  alerts.all (fun a => !(a.is_active && a.is_resolved))

theorem alertsOk_append (l₁ l₂ : List Alert) :
    alertsOk (l₁ ++ l₂) = (alertsOk l₁ && alertsOk l₂) :=
  List.all_append

theorem alertsOk_resolveList (l : List Alert) (pid now : Nat) (h : alertsOk l = true) :
    alertsOk (resolveList l pid now) = true := by
  simp only [alertsOk, resolveList, List.all_map, List.all_eq_true] at h ⊢
  intro a ha
  by_cases hc : (a.part_id == pid && a.is_active) = true
  · simp only [Bool.and_eq_true, beq_iff_eq] at hc
    simp [hc.1, hc.2, Alert.resolve]
  · simp only [Function.comp_apply, if_neg hc]
    exact h a ha

theorem alertsOk_create (ips : List InstrumentPart) (p : Part) :
    (!(((Alert.create_low_stock_alert ips p).is_active) &&
       ((Alert.create_low_stock_alert ips p).is_resolved))) = true := rfl

theorem alertsOk_stepOp (s : DBState) (op : AlertOp) (h : alertsOk s.alerts = true) :
    alertsOk (stepOp s op).alerts = true := by
  cases op with
  | checkStock pid =>
    simp only [stepOp, check_stock_and_create_alert]
    cases findPart s pid with
    | none => exact h
    | some part =>
      simp only
      split
      · exact h
      · cases activeAlertFor s.alerts pid with
        | some a => exact h
        | none =>
          simp only [alertsOk_append, h, Bool.true_and]
          rfl
  | checkAll =>
    simp only [stepOp, check_and_create_alerts, alertsOk_append, h, Bool.true_and]
    simp only [alertsOk, List.all_eq_true]
    intro p hp
    rw [List.mem_map] at hp
    obtain ⟨q, -, rfl⟩ := hp
    rfl
  | resolvePart pid =>
    simp only [stepOp, resolve_alerts_for_part]
    exact alertsOk_resolveList s.alerts pid s.time h
  | stockRoute pid d =>
    simp only [stepOp, update_stock_level]
    cases findPart s pid with
    | none => exact h
    | some db_part =>
      simp only
      cases db_part.update_stock d false with
      | mk part' err =>
        cases err with
        | some e => exact h
        | none =>
          simp only
          split
          · exact alertsOk_resolveList s.alerts pid s.time h
          · split
            · cases activeAlertFor s.alerts pid with
              | some a => exact h
              | none =>
                simp only [alertsOk_append, h, Bool.true_and]
                rfl
            · exact h

theorem alertsOk_runOps (ops : List AlertOp) (s : DBState) (h : alertsOk s.alerts = true) :
    alertsOk (runOps s ops).alerts = true := by
  induction ops generalizing s with
  | nil => exact h
  | cons op ops ih =>
    simp only [runOps]
    exact ih (stepOp s op) (alertsOk_stepOp s op h)

/-- C10: every alert is created with `is_active = true` and
`is_resolved = false`, `resolve` flips both in the same step, so after any
sequence of alert-lifecycle operations no alert row is simultaneously active
and resolved. -/
theorem no_alert_active_and_resolved (parts : List Part) (ips : List InstrumentPart)
    (ops : List AlertOp) :
    alertsOk (runOps (initState parts ips) ops).alerts = true :=
  alertsOk_runOps ops (initState parts ips) rfl

/-- C9: `check_stock_and_create_alert` is idempotent on the database state —
the second call with the same part state finds the active alert created (or
found) by the first and changes nothing — and one call inserts at most one
alert row. -/
theorem check_stock_and_create_alert_idempotent (s : DBState) (pid : Nat) :
    check_stock_and_create_alert (check_stock_and_create_alert s pid) pid
      = check_stock_and_create_alert s pid ∧
    (check_stock_and_create_alert s pid).alerts.length ≤ s.alerts.length + 1 := by
  cases hfp : findPart s pid with
  | none =>
    have hs1 : check_stock_and_create_alert s pid = s := by
      simp only [check_stock_and_create_alert, hfp]
    rw [hs1]
    exact ⟨hs1, by omega⟩
  | some part =>
    by_cases hl : part.is_low_stock = true
    · cases hal : activeAlertFor s.alerts pid with
      | some a =>
        have hs1 : check_stock_and_create_alert s pid = s := by
          simp only [check_stock_and_create_alert, hfp]
          simp [hl, hal]
        rw [hs1]
        exact ⟨hs1, by omega⟩
      | none =>
        have hs1 : check_stock_and_create_alert s pid =
            { s with
              alerts := s.alerts ++ [Alert.create_low_stock_alert s.instrument_parts part],
              queued_emails := s.queued_emails ++ [pid] } := by
          simp only [check_stock_and_create_alert, hfp]
          simp [hl, hal]
        constructor
        · rw [hs1]
          have hfp2 : findPart { s with
              alerts := s.alerts ++ [Alert.create_low_stock_alert s.instrument_parts part],
              queued_emails := s.queued_emails ++ [pid] } pid = some part := hfp
          simp only [check_stock_and_create_alert, hfp2]
          have hpe : part.id = pid := by
            simp only [findPart] at hfp
            have h2 := List.find?_some hfp
            simpa using h2
          have hal2 : activeAlertFor
              (s.alerts ++ [Alert.create_low_stock_alert s.instrument_parts part]) pid
              = some (Alert.create_low_stock_alert s.instrument_parts part) := by
            simp only [activeAlertFor] at hal ⊢
            rw [List.find?_append, hal]
            simp [Alert.create_low_stock_alert, hpe]
          simp [hl, hal2]
        · rw [hs1]
          simp
    · have hs1 : check_stock_and_create_alert s pid = s := by
        rw [check_stock_and_create_alert, hfp]
        simp [hl]
      rw [hs1]
      exact ⟨hs1, by omega⟩

/-- The module-level `EmailRateLimit` dataclass: per-key timestamp of the last
allowed send and count in the current window, as association lists. -/
structure EmailRateLimit where
  last_sent : List (String × Int)
  send_count : List (String × Nat)
  deriving DecidableEq

def emptyLimiter : EmailRateLimit := { last_sent := [], send_count := [] }

def lookupKey {β : Type} (m : List (String × β)) (k : String) : Option β :=
  (m.find? (fun kv => kv.1 == k)).map (fun kv => kv.2)

def setKey {β : Type} (m : List (String × β)) (k : String) (v : β) : List (String × β) :=
  (m.filter (fun kv => !(kv.1 == k))) ++ [(k, v)]

/-- `check_email_rate_limit`: reset the window counter when the key is unknown
or an hour has passed, return `False` when at the cap, otherwise bump the
counters and fall off the end of the function — the python implicitly returns
`None` (modelled as `none`), not `True`. Time is seconds as an integer. -/
def check_email_rate_limit (st : EmailRateLimit) (email_key : String) (max_per_hour : Nat)
    (now : Int) : EmailRateLimit × Option Bool :=
  let hour_ago := now - 3600
  let st :=
    match lookupKey st.last_sent email_key with
    | none => { st with send_count := setKey st.send_count email_key 0 }
    | some t =>
      if t < hour_ago then { st with send_count := setKey st.send_count email_key 0 } else st
  let current_count := (lookupKey st.send_count email_key).getD 0
  if max_per_hour ≤ current_count then
    (st, some false)
  else
    ({ st with
        last_sent := setKey st.last_sent email_key now,
        send_count := setKey st.send_count email_key (current_count + 1) },
     none)

/-- One sendable email. -/
structure Email where
  to_email : String
  subject : String
  body : String
  deriving DecidableEq

/-- One character of `html.escape` (quote=True). -/
def escapeChar (c : Char) : List Char :=
  if c == '&' then "&amp;".data
  else if c == '<' then "&lt;".data
  else if c == '>' then "&gt;".data
  else if c == '"' then "&quot;".data
  else if c == Char.ofNat 39 then "&#x27;".data
  else [c]

def escapeList : List Char → List Char
  | [] => []
  | c :: cs => escapeChar c ++ escapeList cs

/-- `html.escape`: python replaces the ampersand first and the other four
specials afterwards, which coincides with this single character-wise pass. -/
def html_escape (s : String) : String :=
  String.mk (escapeList s.data)

/-- `esccape_html_content` (sic, source name): empty (falsy) content maps to
the empty string, the rest goes through `html.escape`. -/
def esccape_html_content (content : String) : String :=
  if content == "" then "" else html_escape content

/-- The per-part low-stock email body assembled by
`send_low_stock_email_notification`; the `datetime.now()` stamp is the
`now_str` argument. -/
def low_stock_email_body (part : Part) (now_str : String) : String :=
  let safe_name := esccape_html_content part.name
  let safe_part_number := esccape_html_content part.part_number
  let safe_quantity := esccape_html_content (toString part.quantity_in_stock)
  let safe_minimum := esccape_html_content (toString part.minimum_stock_level)
  "\n    <p> This is an automated alert to inform you that a part in the inventory is running low on stock.</p>\n\n    <h2>Part Details:</h2>\n    <ul>\n        <li><strong>Part Name:</strong>"
    ++ safe_name
    ++ "</li>\n        <li><strong>Part Number:</strong>"
    ++ safe_part_number
    ++ "</li>\n        <li><strong>Current Quantity:</strong>"
    ++ safe_quantity
    ++ "</li>\n        <li><strong>Minimum Stock Level:</strong>"
    ++ safe_minimum
    ++ "</li>\n    </ul>\n    <p><small>This is an automated message from FARLAB Inventory System at "
    ++ now_str
    ++ "</small></p>\n"

/-- The same body template with the four dynamic fields abstracted. -/
def low_stock_body_template (name number quantity minimum now_str : String) : String :=
  "\n    <p> This is an automated alert to inform you that a part in the inventory is running low on stock.</p>\n\n    <h2>Part Details:</h2>\n    <ul>\n        <li><strong>Part Name:</strong>"
    ++ name
    ++ "</li>\n        <li><strong>Part Number:</strong>"
    ++ number
    ++ "</li>\n        <li><strong>Current Quantity:</strong>"
    ++ quantity
    ++ "</li>\n        <li><strong>Minimum Stock Level:</strong>"
    ++ minimum
    ++ "</li>\n    </ul>\n    <p><small>This is an automated message from FARLAB Inventory System at "
    ++ now_str
    ++ "</small></p>\n"

/-- `send_low_stock_email_notification`: check the rate limit under the key
`low_stock_{part.id}` with `max_per_hour=5`; the guard `if not check_...`
treats both `False` (over the cap) and the implicit `None` (under the cap) as
falsy, so a send is attempted only on a `True` return. -/
def send_low_stock_email_notification (st : EmailRateLimit) (part : Part)
    (admin_email : String) (now : Int) (now_str : String) : EmailRateLimit × Option Email :=
  let rate_key := "low_stock_" ++ toString part.id
  match check_email_rate_limit st rate_key 5 now with
  | (st1, some true) =>
    (st1, some { to_email := admin_email,
                 subject := "Lows Stock Alert: " ++ part.name,
                 body := low_stock_email_body part now_str })
  | (st1, _) => (st1, none)

/-- One `<li>` line of the periodic summary, interpolating the raw columns. -/
def part_list_item_html (part : Part) : String :=
  "<li><strong>" ++ part.name ++ "</strong> (Part #" ++ part.part_number ++ ") - "
    ++ "In Stock: " ++ toString part.quantity_in_stock ++ ", "
    ++ "Minimum Threshold: " ++ toString part.minimum_stock_level ++ "</li>"

/-- The body assembled by `send_periodic_alert_summary`. -/
def periodic_summary_body (alerts : List Part) : String :=
  "\n        <p>This is your daily summary of inventory items that are low on stock.</p>\n        <h2>Active Low Stock Alerts:</h2>\n        <ul>\n            "
    ++ String.join (alerts.map part_list_item_html)
    ++ "\n        </ul>\n        <p>Please review the inventory and take the necessary action.</p>\n        "

/-- `send_periodic_alert_summary`: nothing to send on an empty list, otherwise
hand the summary email to `_send_email`. -/
def send_periodic_alert_summary (alerts : List Part) (admin_email : String) : Option Email :=
  if alerts.isEmpty then none
  else some { to_email := admin_email,
              subject := "Daily Inventory Alert Summary",
              body := periodic_summary_body alerts }

/-- `get_low_stock_parts` (services/alert_service.py): every part with
`quantity_in_stock <= minimum_stock_level` — no `is_active` filter appears in
the query. -/
def get_low_stock_parts (s : DBState) : List Part :=
  s.parts.filter (fun p => decide (p.quantity_in_stock ≤ p.minimum_stock_level))

/-- `scheduled_alert_job` (services/scheduler.py): fetch the low-stock parts
and send the summary only when the list is non-empty; the returned value is
the email handed to the dispatcher, if any. -/
def scheduled_alert_job (s : DBState) (admin_email : String) : Option Email :=
  let low_stock_parts := get_low_stock_parts s
  if !low_stock_parts.isEmpty then send_periodic_alert_summary low_stock_parts admin_email
  else none

/-- The five counts of `get_alert_summary` (services/alert_service.py). -/
structure AlertSummary where
  total_alerts : Nat
  active_alerts : Nat
  resolved_alerts : Nat
  critical_parts_low : Nat
  out_of_stock_parts : Nat
  deriving DecidableEq

def get_alert_summary (s : DBState) : AlertSummary :=
  { total_alerts := s.alerts.length
    active_alerts := (s.alerts.filter (fun a => a.is_active)).length
    resolved_alerts := (s.alerts.filter (fun a => a.is_resolved)).length
    out_of_stock_parts := (s.parts.filter (fun p =>
        (p.quantity_in_stock == 0) && p.is_active)).length
    critical_parts_low := (s.parts.filter (fun p =>
        p.is_critical && decide (p.quantity_in_stock ≤ p.minimum_stock_level) &&
          decide (0 < p.quantity_in_stock) && p.is_active)).length }

/-- Whether the part owning an alert is active. -/
def partActive (s : DBState) (pid : Nat) : Bool :=
  match findPart s pid with
  | some p => p.is_active
  | none => false

/-- Modelled from the spec words "All counts filter to `is_active=true` parts
only": the three alert counts additionally restricted to alerts whose owning
part is active. -/
def get_alert_summary_specFiltered (s : DBState) : AlertSummary :=
  { total_alerts := (s.alerts.filter (fun a => partActive s a.part_id)).length
    active_alerts := (s.alerts.filter (fun a => a.is_active && partActive s a.part_id)).length
    resolved_alerts := (s.alerts.filter (fun a =>
        a.is_resolved && partActive s a.part_id)).length
    out_of_stock_parts := (s.parts.filter (fun p =>
        (p.quantity_in_stock == 0) && p.is_active)).length
    critical_parts_low := (s.parts.filter (fun p =>
        p.is_critical && decide (p.quantity_in_stock ≤ p.minimum_stock_level) &&
          decide (0 < p.quantity_in_stock) && p.is_active)).length }

/-- What one `_send_email` attempt does, as seen by the retry loop's
exception handlers. -/
inductive SmtpOutcome where
  | success
  | authError
  | disconnect
  | otherError
  deriving DecidableEq

/-- The outcomes the loop retries on (everything except success and the
authentication failure, which `break`s). -/
def SmtpOutcome.isTransient : SmtpOutcome → Bool
  | .disconnect => true
  | .otherError => true
  | _ => false

/-- Observable result of `send_email_with_retry`: attempts made, whether the
exception escaped the function, and the backoff delays slept (seconds). -/
structure RetryResult where
  attempts : Nat
  raised : Bool
  sleeps : List Nat
  deriving DecidableEq

/-- The `for attempt in range(max_retries)` loop of `send_email_with_retry`;
`fuel` is the number of iterations left, so the loop index is `attempt` and a
transient failure at `attempt == max_retries - 1` re-raises. Success and
authentication failure leave the loop without raising (the auth handler only
logs and `break`s). -/
def retryLoop (f : Nat → SmtpOutcome) (max_retries : Nat) :
    Nat → Nat → List Nat → RetryResult
  | 0, attempt, sleeps => { attempts := attempt, raised := false, sleeps := sleeps }
  | fuel + 1, attempt, sleeps =>
    match f attempt with
    | .success => { attempts := attempt + 1, raised := false, sleeps := sleeps }
    | .authError => { attempts := attempt + 1, raised := false, sleeps := sleeps }
    | .disconnect =>
      if attempt == max_retries - 1 then
        { attempts := attempt + 1, raised := true, sleeps := sleeps }
      else retryLoop f max_retries fuel (attempt + 1) (sleeps ++ [2 ^ attempt])
    | .otherError =>
      if attempt == max_retries - 1 then
        { attempts := attempt + 1, raised := true, sleeps := sleeps }
      else retryLoop f max_retries fuel (attempt + 1) (sleeps ++ [2 ^ attempt])

/-- `send_email_with_retry` with its default `max_retries`. -/
def send_email_with_retry (f : Nat → SmtpOutcome) (max_retries : Nat) : RetryResult :=
  retryLoop f max_retries max_retries 0 []

/-- C3 (code bug): `check_email_rate_limit` never returns `True` — on the
allowed path it updates the counters and falls off the end, implicitly
returning `None` — so the caller's `if not check_email_rate_limit(...)` guard
is satisfied on every attempt, including the very first, and no low-stock
email send is ever attempted. -/
theorem rate_limit_never_allows_send :
    (∀ (st : EmailRateLimit) (key : String) (max_per_hour : Nat) (now : Int),
      ((check_email_rate_limit st key max_per_hour now).2.getD false) = false) ∧
    (send_low_stock_email_notification emptyLimiter demoPart "admin@farlab.no" 0 "ts").2
      = none := by
  constructor
  · intro st key max_per_hour now
    simp only [check_email_rate_limit]
    split <;> rfl
  · rfl

def examplePart : Part :=
  { id := 2, part_number := "PN-2", name := "o-ring", quantity_in_stock := 5,
    minimum_stock_level := 2 }

/-- C4 counterexample: with 5 in stock, removing 10 makes `update_stock`
raise, yet the part object's quantity is mutated (clamped to 0), not left at
its pre-call value 5. -/
theorem update_stock_overdraw_mutates_quantity :
    ((examplePart.update_stock (-10) false).2.isSome
      && !((examplePart.update_stock (-10) false).1.quantity_in_stock
            == examplePart.quantity_in_stock)) = true := by decide

/-- C4 amended: when `update_stock` raises on an overdraw, the quantity is
clamped to 0 (a mutation whenever it was positive) and every other field of
the part is unchanged. -/
theorem update_stock_overdraw_clamps_to_zero (p : Part) (d : Int) (fc : Bool)
    (h : (p.update_stock d fc).2.isSome = true) :
    (p.update_stock d fc).1 = { p with quantity_in_stock := 0 } := by
  by_cases hc : ({ p with quantity_in_stock := p.quantity_in_stock + d } : Part).quantity_in_stock < 0
  · simp only [Part.update_stock, if_pos hc]
  · simp only [Part.update_stock, if_neg hc] at h
    simp at h

/-- Closed instance of the C4 amended theorem at the concrete overdraw. -/
theorem update_stock_overdraw_clamps_to_zero_witness :
    ((examplePart.update_stock (-10) false).2.isSome = true) ∧
    (examplePart.update_stock (-10) false).1 = { examplePart with quantity_in_stock := 0 } :=
  ⟨by decide, update_stock_overdraw_clamps_to_zero examplePart (-10) false (by decide)⟩

def inactivePart : Part :=
  { id := 3, part_number := "PN-3", name := "valve", quantity_in_stock := 0,
    minimum_stock_level := 5, is_active := false }

def exStateC5 : DBState :=
  { parts := [inactivePart],
    instrument_parts := [],
    alerts := [{ part_id := 3, message := "m", current_stock := 0, threshold_stock := 5,
                 is_active := true, is_resolved := false, resolved_at := none }],
    queued_emails := [], time := 0 }

/-- C5 counterexample: with one alert owned by an inactive part, the code
counts it (`total_alerts = 1`), while filtering every count to active parts
as the claim states would give 0 — the three alert counts are not filtered by
part activity. -/
theorem get_alert_summary_counts_inactive_part_alerts :
    decide (get_alert_summary exStateC5 = get_alert_summary_specFiltered exStateC5) = false
      ∧ (get_alert_summary exStateC5).total_alerts = 1
      ∧ (get_alert_summary_specFiltered exStateC5).total_alerts = 0 := by decide

/-- C5 amended: `get_alert_summary` returns five counts; the two part counts
(active+critical parts with stock between 1 and threshold inclusive, and
active parts at exactly zero stock) are filtered to `is_active = true` parts,
while the three alert counts range over the whole alert table regardless of
the owning part's activity. -/
theorem get_alert_summary_characterization (s : DBState) :
    (get_alert_summary s).total_alerts = s.alerts.length ∧
    (get_alert_summary s).active_alerts = (s.alerts.filter (fun a => a.is_active)).length ∧
    (get_alert_summary s).resolved_alerts = (s.alerts.filter (fun a => a.is_resolved)).length ∧
    (get_alert_summary s).critical_parts_low
      = (s.parts.filter (fun p => p.is_active && p.is_critical &&
          decide (1 ≤ p.quantity_in_stock ∧
            p.quantity_in_stock ≤ p.minimum_stock_level))).length ∧
    (get_alert_summary s).out_of_stock_parts
      = (s.parts.filter (fun p => p.is_active && (p.quantity_in_stock == 0))).length := by
  refine ⟨rfl, rfl, rfl, ?_, ?_⟩
  · simp only [get_alert_summary]
    congr 1
    apply List.filter_congr
    intro p _
    have he : decide ((1:Int) ≤ p.quantity_in_stock) = decide ((0:Int) < p.quantity_in_stock) :=
      decide_eq_decide.mpr (by omega)
    simp only [Bool.decide_and, he]
    cases p.is_critical <;> cases p.is_active <;>
      simp [Bool.and_comm, Bool.and_assoc, Bool.and_left_comm]
  · simp only [get_alert_summary]
    congr 1
    apply List.filter_congr
    intro p _
    exact Bool.and_comm _ _

def exStateC6 : DBState :=
  { parts := [inactivePart], instrument_parts := [], alerts := [],
    queued_emails := [], time := 0 }

/-- C6 counterexample: a single inactive part at or below threshold is
returned by `get_low_stock_parts` and makes the scheduled run send a summary
email, so inactive parts do appear in the reconciliation query and summary. -/
theorem get_low_stock_parts_includes_inactive :
    ((get_low_stock_parts exStateC6 == [inactivePart])
      && !inactivePart.is_active
      && (scheduled_alert_job exStateC6 "admin@farlab.no").isSome) = true := by decide

/-- C6 amended: the scheduled run queries every part — active or not — whose
stock is at or below its minimum, and it sends no email exactly when that set
is empty. -/
theorem get_low_stock_parts_characterization (s : DBState) (admin_email : String) :
    get_low_stock_parts s
      = s.parts.filter (fun p => decide (p.quantity_in_stock ≤ p.minimum_stock_level)) ∧
    (scheduled_alert_job s admin_email).isNone = (get_low_stock_parts s).isEmpty := by
  refine ⟨rfl, ?_⟩
  simp only [scheduled_alert_job, send_periodic_alert_summary]
  cases h : (get_low_stock_parts s).isEmpty <;> simp [h]

def authAlways : Nat → SmtpOutcome := fun _ => SmtpOutcome.authError

def disconnectThrice : Nat → SmtpOutcome := fun n =>
  if n < 3 then SmtpOutcome.disconnect else SmtpOutcome.success

/-- C7 counterexample: on an authentication failure the loop `break`s — the
call returns normally instead of surfacing the failure — and with a transient
failure on each attempt the loop raises after 3 attempts (2 retries), never
making the 4th attempt that a policy of 3 retries would allow. -/
theorem send_email_with_retry_swallows_auth_failure :
    ((send_email_with_retry authAlways 3).raised == false
      && (send_email_with_retry authAlways 3).attempts == 1
      && (send_email_with_retry disconnectThrice 3).raised == true
      && (send_email_with_retry disconnectThrice 3).attempts == 3) = true := by decide

/-- C7 amended: with the default `max_retries = 3` the function makes up to 3
send attempts in total (the first try plus at most 2 retries), stopping at the
first non-transient outcome; the backoff slept before retry i is 2^(i-1)
seconds, doubling each attempt; the exception escapes only when all 3 attempts
fail transiently; an authentication failure stops the loop without raising. -/
theorem send_email_with_retry_characterization (f : Nat → SmtpOutcome) :
    (send_email_with_retry f 3).attempts
      = (if (f 0).isTransient then (if (f 1).isTransient then 3 else 2) else 1) ∧
    (send_email_with_retry f 3).raised
      = ((f 0).isTransient && ((f 1).isTransient && (f 2).isTransient)) ∧
    (send_email_with_retry f 3).sleeps
      = (List.range ((send_email_with_retry f 3).attempts - 1)).map (fun i => 2 ^ i) := by
  rcases h0 : f 0 <;> rcases h1 : f 1 <;> rcases h2 : f 2 <;>
    simp [send_email_with_retry, retryLoop, h0, h1, h2, SmtpOutcome.isTransient,
      List.range_succ]

def evilPart : Part :=
  { id := 4, part_number := "PN-4", name := "<b>valve</b>", quantity_in_stock := 1,
    minimum_stock_level := 5 }

/-- Modelled from the spec words "all dynamic text interpolated into the email
body ... must be escaped": the summary line with its dynamic fields escaped. -/
def part_list_item_html_specEscaped (part : Part) : String :=
  "<li><strong>" ++ esccape_html_content part.name ++ "</strong> (Part #"
    ++ esccape_html_content part.part_number ++ ") - "
    ++ "In Stock: " ++ esccape_html_content (toString part.quantity_in_stock) ++ ", "
    ++ "Minimum Threshold: " ++ esccape_html_content (toString part.minimum_stock_level)
    ++ "</li>"

/-- Modelled from the spec words: the periodic summary body with escaping. -/
def periodic_summary_body_specEscaped (alerts : List Part) : String :=
  "\n        <p>This is your daily summary of inventory items that are low on stock.</p>\n        <h2>Active Low Stock Alerts:</h2>\n        <ul>\n            "
    ++ String.join (alerts.map part_list_item_html_specEscaped)
    ++ "\n        </ul>\n        <p>Please review the inventory and take the necessary action.</p>\n        "

set_option maxRecDepth 10000 in
/-- C8 counterexample: a part name containing markup is interpolated verbatim
into the periodic summary body — that path performs no escaping, so the body
differs from the escaped body the spec requires. -/
theorem periodic_summary_body_not_escaped :
    decide (periodic_summary_body [evilPart] = periodic_summary_body_specEscaped [evilPart])
      = false := by decide

theorem escapeChar_safe (c : Char) :
    (escapeChar c).all (fun ch => !(ch == '<' || ch == '>' || ch == '"')) = true := by
  simp only [escapeChar]
  split
  · decide
  · split
    · decide
    · split
      · decide
      · split
        · decide
        · split
          · decide
          · simp_all

theorem escapeList_safe (l : List Char) :
    (escapeList l).all (fun ch => !(ch == '<' || ch == '>' || ch == '"')) = true := by
  induction l with
  | nil => rfl
  | cons c cs ih =>
    simp only [escapeList, List.all_append, ih, Bool.and_true]
    exact escapeChar_safe c

theorem esccape_html_content_safe (s : String) :
    ((esccape_html_content s).data.all
      (fun ch => !(ch == '<' || ch == '>' || ch == '"'))) = true := by
  simp only [esccape_html_content]
  split
  · rfl
  · exact escapeList_safe s.data

/-- C8 amended: the per-part low-stock body interpolates exactly the escaped
name, part number and quantities into its template — and escaping removes
every `<`, `>` and double quote — but the periodic summary body interpolates
the raw columns unescaped (see the counterexample). -/
theorem email_body_escaping_characterization (part : Part) (now_str str : String) :
    low_stock_email_body part now_str
      = low_stock_body_template (esccape_html_content part.name)
          (esccape_html_content part.part_number)
          (esccape_html_content (toString part.quantity_in_stock))
          (esccape_html_content (toString part.minimum_stock_level)) now_str ∧
    ((esccape_html_content str).data.all
      (fun ch => !(ch == '<' || ch == '>' || ch == '"'))) = true :=
  ⟨rfl, esccape_html_content_safe str⟩

end Farlab
